import Mathlib

/-!
Shallow embedding of the internet-fax-machine worker (TypeScript/Cloudflare
Worker) in Lean 4, covering the provider layer (`src/providers/telnyx.ts`,
`src/providers/sinch.ts`, the Dropbox Fax provider), the provider resolver
and the basic-auth check of the router (`worker.ts`).

Modelling conventions:
- JavaScript strings are Lean `String`s; optional environment variables are
  `Option String`; JS truthiness of a string value (`""`, `undefined` falsy)
  is the `truthy` predicate.
- JSON values are the inductive `JsVal`.  The platform primitives
  `JSON.parse` (and `req.json()` / `req.formData()` / `URLSearchParams`)
  are passed in as explicit function parameters, since they are not code of
  this repository; `JSON.stringify` is modelled structurally by recording
  the structured value that was stringified.
- `btoa` (base64 of a latin-1 string) is implemented concretely.
- Network I/O is explicit: each provider function is parameterised by an
  oracle `respond : FetchRequest → Except String HttpResponse` (an `.error`
  models a rejected `fetch`) and returns the ordered list of requests it
  issued; KV writes are returned as an ordered list of `KVPut` records.
- A thrown JS exception is an `Except.error`; webhook handlers, whose
  source wraps the body in `try/catch`, convert it into the 500 response
  the catch block builds.
-/

/-- JSON-like runtime values (the result of `JSON.parse`, webhook payloads,
request bodies passed to `JSON.stringify`). -/
inductive JsVal where
  | jnull : JsVal
  | jbool : Bool → JsVal
  | jnum : Int → JsVal
  | jstr : String → JsVal
  | jarr : List JsVal → JsVal
  | jobj : List (String × JsVal) → JsVal

/-- JS string truthiness for an optional environment variable: `undefined`
and `""` are falsy, every other string is truthy. -/
def truthy : Option String → Bool
  | none => false
  | some s => s != ""

/-- JS value truthiness (for `if (x)` on a JSON value): `null`, `false`,
`0` and `""` are falsy; objects and arrays are always truthy. -/
def jTruthy : JsVal → Bool
  | .jnull => false
  | .jbool b => b
  | .jnum n => n != 0
  | .jstr s => s != ""
  | .jarr _ => true
  | .jobj _ => true

/-- Property access `o[k]` on a JSON value: `none` models `undefined`
(missing key, or receiver is not an object). -/
def jGet : JsVal → String → Option JsVal
  | .jobj fs, k => (fs.find? (fun p => p.1 = k)).map (fun p => p.2)
  | _, _ => none

/-- Optional chaining `v?.k`: short-circuits to `undefined` when the
receiver is `null`/`undefined`, otherwise accesses the property. -/
def jChain : Option JsVal → String → Option JsVal
  | none, _ => none
  | some .jnull, _ => none
  | some v, k => jGet v k

/-- Nullish coalescing `v ?? d`: takes the default when `v` is
`null`/`undefined`. -/
def nullish : Option JsVal → JsVal → JsVal
  | none, d => d
  | some .jnull, d => d
  | some v, _ => v

/-- Strict equality of a JSON value with a string literal
(`v === "lit"`). -/
def isStr : JsVal → String → Bool
  | .jstr s, t => s = t
  | _, _ => false

mutual
/-- JS string coercion `String(v)` / template-literal interpolation of a
JSON value (numbers are modelled as integers). -/
def jsToString : JsVal → String
  | .jnull => "null"
  | .jbool true => "true"
  | .jbool false => "false"
  | .jnum n => toString n
  | .jstr s => s
  | .jarr xs => String.intercalate "," (jsToStringList xs)
  | .jobj _ => "[object Object]"

/-- Pointwise `jsToString` over a list (array element coercion). -/
def jsToStringList : List JsVal → List String
  | [] => []
  | x :: xs => jsToString x :: jsToStringList xs
end

/-- Does the character list `s` start with `pat`? -/
def listStartsWith : List Char → List Char → Bool
  | _, [] => true
  | [], _ :: _ => false
  | a :: as, b :: bs => a = b && listStartsWith as bs

/-- Does the character list `s` contain `pat` as a contiguous run? -/
def listContainsSeq : List Char → List Char → Bool
  | s, pat =>
    listStartsWith s pat ||
      (match s with
       | [] => false
       | _ :: rest => listContainsSeq rest pat)

/-- JS `s.includes(pat)` for strings. -/
def strIncludes (s pat : String) : Bool :=
  listContainsSeq s.toList pat.toList

/-- JS `s.toLowerCase()` (ASCII case folding suffices for the provider
names used by the resolver). -/
def jsToLowerCase (s : String) : String :=
  String.mk (s.toList.map Char.toLower)

/-- JS `s.startsWith(pre)` for strings. -/
def jsStartsWith (s pre : String) : Bool :=
  listStartsWith s.toList pre.toList

/-- The base64 alphabet used by `btoa`. -/
def base64Alphabet : List Char :=
  "ABCDEFGHIJKLMNOPQRSTUVWXYZabcdefghijklmnopqrstuvwxyz0123456789+/".toList

/-- The base64 digit for a sextet value. -/
def b64Char (n : Nat) : Char :=
  base64Alphabet.getD n 'A'

/-- Base64-encode a list of byte values, three bytes at a time, padding
with `=` as the standard prescribes. -/
def base64Chunks : List Nat → List Char
  | [] => []
  | [a] => [b64Char (a / 4), b64Char (a % 4 * 16), '=', '=']
  | [a, b] => [b64Char (a / 4), b64Char (a % 4 * 16 + b / 16), b64Char (b % 16 * 4), '=']
  | a :: b :: c :: rest =>
    b64Char (a / 4) :: b64Char (a % 4 * 16 + b / 16) ::
      b64Char (b % 16 * 4 + c / 64) :: b64Char (c % 64) :: base64Chunks rest

/-- The platform `btoa`: base64 of a string of latin-1 code points. -/
def btoa (s : String) : String :=
  String.mk (base64Chunks (s.toList.map Char.toNat))

/-- JS object construction from a sequence of entries (`obj[k] = v` in
iteration order, later values overwriting earlier ones in place). -/
def dictInsert (d : List (String × String)) (k v : String) : List (String × String) :=
  if d.any (fun p => p.1 = k) then d.map (fun p => if p.1 = k then (k, v) else p)
  else d ++ [(k, v)]

/-- Build a JS record from entries with JS assignment semantics. -/
def dictOf (entries : List (String × String)) : List (String × String) :=
  entries.foldl (fun d p => dictInsert d p.1 p.2) []

/-- Lookup in a built record (`fields[k]`, `undefined` when absent). -/
def dictGet (d : List (String × String)) (k : String) : Option String :=
  (d.find? (fun p => p.1 = k)).map (fun p => p.2)

/-- A JS record of strings as a JSON object (for `JSON.stringify(fields)`). -/
def dictToJson (d : List (String × String)) : JsVal :=
  .jobj (d.map (fun p => (p.1, .jstr p.2)))

/-- The worker environment (`WorkerEnv` in `providers/types.ts`): every
configuration field is an optional string. -/
structure WorkerEnv where
  FAX_PROVIDER : Option String := none
  BASIC_AUTH_USER : Option String := none
  BASIC_AUTH_PASS : Option String := none
  TELNYX_API_KEY : Option String := none
  CONNECTION_ID : Option String := none
  FAX_FROM : Option String := none
  DROPBOX_SIGN_API_KEY : Option String := none
  DROPBOX_FAX_TEST_MODE : Option String := none
  SINCH_PROJECT_ID : Option String := none
  SINCH_ACCESS_KEY : Option String := none
  SINCH_SECRET_KEY : Option String := none
deriving DecidableEq

/-- Per-request context handed to providers (`ProviderContext`); the KV
handle is modelled by the effect lists the provider functions return, and
the logger is effect-free for the properties considered here. -/
structure ProviderContext where
  requestId : String
  baseUrl : String
  env : WorkerEnv
deriving DecidableEq

/-- `SendFaxParams` from `providers/types.ts`. -/
structure SendFaxParams where
  «to» : String
  mediaUrl : String
deriving DecidableEq

/-- `ProviderSendResult` from `providers/types.ts`; `fax`/`raw` hold JSON
values (a body left as text is a `jstr`). -/
structure ProviderSendResult where
  ok : Bool
  status : Nat
  fax : JsVal
  raw : JsVal

/-- An outbound HTTP request issued through `fetch`; the JSON body is
recorded structurally (the value handed to `JSON.stringify`). -/
structure FetchRequest where
  url : String
  method : String
  headers : List (String × String)
  body : Option JsVal

/-- An HTTP response as seen through `fetch`: `bodyText` is what
`res.text()`/`res.json()` consume, `bodyBytes` what `res.arrayBuffer()`
returns. -/
structure HttpResponse where
  status : Nat
  bodyText : String
  bodyBytes : List Nat
  headers : List (String × String)

/-- `Response.ok` of the fetch API: status in the 2xx range. -/
def respOk (r : HttpResponse) : Bool :=
  200 ≤ r.status && r.status ≤ 299

/-- A value written to the KV store: raw bytes (`arrayBuffer` puts), plain
text, or the structured value passed to `JSON.stringify`. -/
inductive PutValue where
  | bytes : List Nat → PutValue
  | text : String → PutValue
  | jsonText : JsVal → PutValue

/-- One `kv.put` call: key, value, and the optional `{ metadata: ... }`
option object. -/
structure KVPut where
  key : String
  value : PutValue
  meta : Option JsVal

/-- Outcome of a `sendFax` call: the outbound requests issued, and either
the returned `ProviderSendResult` or a thrown exception. -/
structure SendOutcome where
  calls : List FetchRequest
  result : Except String ProviderSendResult

/-- The result `{ ok: false, status: 500, fax: null, raw: { error:
"<FIELD> not configured" } }` each provider returns when configuration is
missing. -/
def configErrorResult (fld : String) : ProviderSendResult :=
  { ok := false
  , status := 500
  , fax := .jnull
  , raw := .jobj [("error", .jstr (fld ++ " not configured"))] }

/-- Error message modelling the rejection of `res.json()` on a body that
is not valid JSON. -/
def jsonParseError : String := "SyntaxError: unexpected token in JSON"

/-- Error message modelling the rejection of `req.formData()` on a body
that is not parseable form data. -/
def formDataError : String := "TypeError: could not parse form data"

/-- Error message for `kv.put(key, undefined)` (the value
`JSON.stringify(undefined)` is `undefined`, which KV rejects). -/
def kvPutUndefinedError : String := "TypeError: KV put() requires a valid value"

/-- Error message for calling `.slice` on a non-string `media_url` in the
telnyx webhook log call. -/
def sliceTypeError : String := "TypeError: mediaUrl.slice is not a function"

/-- Path the Telnyx provider registers for webhook callbacks. -/
def telnyxWebhookPath : String := "/telnyx/fax-rx"

/-- Path the Sinch provider registers for webhook callbacks. -/
def sinchWebhookPath : String := "/sinch/fax-rx"

/-- Path the Dropbox Fax provider registers for webhook callbacks. -/
def dropboxWebhookPath : String := "/dropbox/fax-rx"

/-- The request `TelnyxProvider.sendFax` issues to the Telnyx API once the
configuration checks have passed (the `getD ""` defaults are unreachable
at the call site, which only builds the request for truthy fields). -/
def telnyxFetchRequest (params : SendFaxParams) (baseUrl : String) (env : WorkerEnv) : FetchRequest :=
  { url := "https://api.telnyx.com/v2/faxes"
  , method := "POST"
  , headers :=
      [ ("authorization", "Bearer " ++ env.TELNYX_API_KEY.getD "")
      , ("content-type", "application/json") ]
  , body := some (.jobj
      [ ("connection_id", .jstr (env.CONNECTION_ID.getD ""))
      , ("from", .jstr (env.FAX_FROM.getD ""))
      , ("to", .jstr params.«to»)
      , ("media_url", .jstr params.mediaUrl)
      , ("quality", .jstr "high")
      , ("t38_enabled", .jbool true)
      , ("webhook_url", .jstr (baseUrl ++ telnyxWebhookPath)) ]) }

/-- `TelnyxProvider.sendFax` from `src/providers/telnyx.ts`: fail-fast
configuration checks, the authenticated vendor call, and `await
telnyxRes.json()` on the response (which throws on a non-JSON body). -/
def telnyxSendFax (parseJson : String → Option JsVal)
    (respond : FetchRequest → Except String HttpResponse)
    (params : SendFaxParams) (ctx : ProviderContext) : SendOutcome :=
  if !truthy ctx.env.TELNYX_API_KEY then
    ⟨[], .ok (configErrorResult "TELNYX_API_KEY")⟩
  else if !truthy ctx.env.CONNECTION_ID then
    ⟨[], .ok (configErrorResult "CONNECTION_ID")⟩
  else if !truthy ctx.env.FAX_FROM then
    ⟨[], .ok (configErrorResult "FAX_FROM")⟩
  else
    let req := telnyxFetchRequest params ctx.baseUrl ctx.env
    match respond req with
    | .error e => ⟨[req], .error e⟩
    | .ok resp =>
      match parseJson resp.bodyText with
      | none => ⟨[req], .error jsonParseError⟩
      | some body =>
        ⟨[req], .ok { ok := respOk resp, status := resp.status, fax := body, raw := body }⟩

/-- The request `SinchProvider.sendFax` issues to the Sinch API once the
configuration checks have passed. -/
def sinchFetchRequest (params : SendFaxParams) (env : WorkerEnv) : FetchRequest :=
  { url := "https://fax.api.sinch.com/v3/projects/" ++ env.SINCH_PROJECT_ID.getD "" ++ "/faxes"
  , method := "POST"
  , headers :=
      [ ("content-type", "application/json")
      , ("authorization",
          "Basic " ++ btoa (env.SINCH_ACCESS_KEY.getD "" ++ ":" ++ env.SINCH_SECRET_KEY.getD "")) ]
  , body := some (.jobj
      [ ("to", .jstr params.«to»)
      , ("from", .jstr (env.FAX_FROM.getD ""))
      , ("contentUrl", .jstr params.mediaUrl) ]) }

/-- Decode a vendor response body the way Sinch/Dropbox providers do:
`JSON.parse` when possible, else the body left as text (this is the
non-throwing fallback). -/
def jsonOrText (parseJson : String → Option JsVal) (t : String) : JsVal :=
  (parseJson t).getD (.jstr t)

/-- `SinchProvider.sendFax` from `src/providers/sinch.ts`. -/
def sinchSendFax (parseJson : String → Option JsVal)
    (respond : FetchRequest → Except String HttpResponse)
    (params : SendFaxParams) (ctx : ProviderContext) : SendOutcome :=
  if !truthy ctx.env.SINCH_PROJECT_ID then
    ⟨[], .ok (configErrorResult "SINCH_PROJECT_ID")⟩
  else if !truthy ctx.env.SINCH_ACCESS_KEY || !truthy ctx.env.SINCH_SECRET_KEY then
    ⟨[], .ok (configErrorResult "SINCH_ACCESS_KEY or SINCH_SECRET_KEY")⟩
  else
    let req := sinchFetchRequest params ctx.env
    match respond req with
    | .error e => ⟨[req], .error e⟩
    | .ok resp =>
      let body := jsonOrText parseJson resp.bodyText
      ⟨[req], .ok { ok := respOk resp, status := resp.status, fax := body, raw := body }⟩

/-- The request `DropboxFaxProvider.sendFax` issues to the Dropbox Sign
API once the configuration check has passed; `sender: env.FAX_FROM ||
undefined` makes `JSON.stringify` omit the `sender` key when `FAX_FROM`
is falsy. -/
def dropboxFetchRequest (params : SendFaxParams) (env : WorkerEnv) : FetchRequest :=
  { url := "https://api.hellosign.com/v3/fax/send"
  , method := "POST"
  , headers :=
      [ ("authorization", "Basic " ++ btoa (env.DROPBOX_SIGN_API_KEY.getD "" ++ ":"))
      , ("content-type", "application/json") ]
  , body := some (.jobj
      ( [("recipient", .jstr params.«to»)]
        ++ (if truthy env.FAX_FROM then [("sender", .jstr (env.FAX_FROM.getD ""))] else [])
        ++ [ ("file_urls", .jarr [.jstr params.mediaUrl])
           , ("test_mode", .jbool (env.DROPBOX_FAX_TEST_MODE != some "0"))
           , ("title", .jstr "Fax via Internet Fax Worker") ])) }

/-- `DropboxFaxProvider.sendFax` (Dropbox Sign / HelloFax provider). -/
def dropboxSendFax (parseJson : String → Option JsVal)
    (respond : FetchRequest → Except String HttpResponse)
    (params : SendFaxParams) (ctx : ProviderContext) : SendOutcome :=
  if !truthy ctx.env.DROPBOX_SIGN_API_KEY then
    ⟨[], .ok (configErrorResult "DROPBOX_SIGN_API_KEY")⟩
  else
    let req := dropboxFetchRequest params ctx.env
    match respond req with
    | .error e => ⟨[req], .error e⟩
    | .ok resp =>
      let body := jsonOrText parseJson resp.bodyText
      ⟨[req], .ok { ok := respOk resp, status := resp.status, fax := body, raw := body }⟩

/-- Tags for the provider implementations present in the repository. -/
inductive PName where
  | telnyx
  | sinch
  | dropboxFax
deriving DecidableEq

/-- Dispatch `sendFax` by provider tag. -/
def sendFaxOf : PName → (String → Option JsVal) → (FetchRequest → Except String HttpResponse) →
    SendFaxParams → ProviderContext → SendOutcome
  | .telnyx => telnyxSendFax
  | .sinch => sinchSendFax
  | .dropboxFax => dropboxSendFax

/-- The per-provider condition under which `sendFax` refuses to place the
vendor call: some required configuration field is falsy (the checks the
source performs, in the source's own grouping). -/
def requiredConfigMissing : PName → WorkerEnv → Bool
  | .telnyx, e => !truthy e.TELNYX_API_KEY || !truthy e.CONNECTION_ID || !truthy e.FAX_FROM
  | .sinch, e => !truthy e.SINCH_PROJECT_ID || !truthy e.SINCH_ACCESS_KEY || !truthy e.SINCH_SECRET_KEY
  | .dropboxFax, e => !truthy e.DROPBOX_SIGN_API_KEY

/-- `resolveProvider` from `worker.ts`: lowercase the configured name
(defaulting to "telnyx" when unset) and look it up in the closed registry,
which contains only the Telnyx provider. -/
def resolveProvider (env : WorkerEnv) : Except String PName :=
  let name := jsToLowerCase (env.FAX_PROVIDER.getD "telnyx")
  if name = "telnyx" then .ok .telnyx
  else .error ("Unsupported fax provider: " ++ name)

/-- Result of `checkBasicAuth`. -/
structure AuthResult where
  authorized : Bool
  user : Option String
deriving DecidableEq

/-- `checkBasicAuth` from `worker.ts`, parameterised by the platform
base64 decoder `atob` (`none` models the decoder throwing on invalid
input); `authHeader` is `req.headers.get("Authorization")`. -/
def checkBasicAuth (atob : String → Option String)
    (authHeader : Option String) (env : WorkerEnv) : AuthResult :=
  if !truthy env.BASIC_AUTH_USER || !truthy env.BASIC_AUTH_PASS then
    { authorized := true, user := none }
  else
    match authHeader with
    | none => { authorized := false, user := none }
    | some h =>
      if !(jsStartsWith h "Basic ") then { authorized := false, user := none }
      else
        match atob (h.drop 6) with
        | none => { authorized := false, user := none }
        | some credentials =>
          let parts := credentials.splitOn ":"
          let user := parts.getD 0 ""
          let pass := parts.get? 1
          if some user = env.BASIC_AUTH_USER && pass = env.BASIC_AUTH_PASS then
            { authorized := true, user := some user }
          else
            { authorized := false, user := none }

/-- The router's protected-endpoint test from `worker.ts`. -/
def isProtectedEndpoint (path method : String) : Bool :=
  (jsStartsWith path "/media/" && method == "PUT") ||
    (path == "/fax/send" && method == "POST")

/-- An inbound webhook request as the handlers see it: the value of the
`content-type` header (`none` when absent) and the raw body text. -/
structure WebhookRequest where
  contentType : Option String
  bodyText : String

/-- A binary file part of a multipart form. -/
structure FormFile where
  key : String
  name : String
  ftype : String
  bytes : List Nat

/-- One entry of a parsed `FormData`, in iteration order. -/
inductive FormEntry where
  | fld : String → String → FormEntry
  | file : FormFile → FormEntry

/-- The text fields of a form, folded into a JS record
(`fields[key] = value` per entry). -/
def formFields (es : List FormEntry) : List (String × String) :=
  dictOf (es.filterMap (fun e => match e with | .fld k v => some (k, v) | _ => none))

/-- The binary file parts of a form, in order. -/
def formFiles (es : List FormEntry) : List FormFile :=
  es.filterMap (fun e => match e with | .file f => some f | _ => none)

/-- A webhook handler's HTTP response: status and structured JSON body. -/
structure WResponse where
  status : Nat
  body : JsVal

/-- Outcome of a `handleWebhook` call: media fetches issued, KV puts
performed (in order), and the returned response. -/
structure WebhookOutcome where
  calls : List FetchRequest
  puts : List KVPut
  response : WResponse

/-- The 500 body the webhook catch blocks build:
`{ ok: false, requestId, error: String(err) }`. -/
def webhookErrBody (rid e : String) : JsVal :=
  .jobj [("ok", .jbool false), ("requestId", .jstr rid), ("error", .jstr e)]

/-- The 200 body of the telnyx webhook handler: `{ ok: true, requestId }`. -/
def telnyxOkBody (rid : String) : JsVal :=
  .jobj [("ok", .jbool true), ("requestId", .jstr rid)]

/-- `event.data?.event_type ?? "unknown"` of a telnyx webhook event. -/
def telnyxEventType (ev : JsVal) : JsVal :=
  nullish (jChain (jGet ev "data") "event_type") (.jstr "unknown")

/-- `event.data?.payload` of a telnyx webhook event. -/
def telnyxPayload (ev : JsVal) : Option JsVal :=
  jChain (jGet ev "data") "payload"

/-- `event.data?.payload?.fax_id ?? ctx.requestId`, as the string it
interpolates to in the storage keys. -/
def telnyxFaxId (ev : JsVal) (rid : String) : String :=
  jsToString (nullish (jChain (telnyxPayload ev) "fax_id") (.jstr rid))

/-- `event.data?.payload?.media_url` of a telnyx webhook event. -/
def telnyxMediaUrl (ev : JsVal) : Option JsVal :=
  jChain (telnyxPayload ev) "media_url"

/-- The metadata-storing tail of the telnyx webhook handler:
`kv.put(key, JSON.stringify(event.data?.payload))`, which throws when the
payload is absent (`JSON.stringify(undefined)` is `undefined`, rejected
by `put`). -/
def telnyxStoreMeta (ev : JsVal) (ctx : ProviderContext) (key : String) : WebhookOutcome :=
  match telnyxPayload ev with
  | none => ⟨[], [], ⟨500, webhookErrBody ctx.requestId kvPutUndefinedError⟩⟩
  | some p => ⟨[], [⟨key, .jsonText p, none⟩], ⟨200, telnyxOkBody ctx.requestId⟩⟩

/-- `TelnyxProvider.handleWebhook` from `src/providers/telnyx.ts`: parses
the body as JSON unconditionally (no content-type branching); on
`fax.received` with a truthy `media_url` fetches the media with the
bearer header and stores the bytes, otherwise stores payload metadata;
any thrown error becomes the catch block's 500 response.  A `null` event
makes the `event.data` access throw; a truthy non-string `media_url`
makes the log call's `mediaUrl.slice(0, 120)` throw. -/
def telnyxHandleWebhook (parseJson : String → Option JsVal)
    (respond : FetchRequest → Except String HttpResponse)
    (req : WebhookRequest) (ctx : ProviderContext) : WebhookOutcome :=
  match parseJson req.bodyText with
  | none => ⟨[], [], ⟨500, webhookErrBody ctx.requestId jsonParseError⟩⟩
  | some .jnull =>
    ⟨[], [], ⟨500, webhookErrBody ctx.requestId "TypeError: cannot read properties of null"⟩⟩
  | some ev =>
    let faxId := telnyxFaxId ev ctx.requestId
    if isStr (telnyxEventType ev) "fax.received" then
      match telnyxMediaUrl ev with
      | some mu =>
        if jTruthy mu then
          match mu with
          | .jstr u =>
            let headers :=
              if truthy ctx.env.TELNYX_API_KEY then
                [("authorization", "Bearer " ++ ctx.env.TELNYX_API_KEY.getD "")]
              else []
            let mreq : FetchRequest := ⟨u, "GET", headers, none⟩
            match respond mreq with
            | .error e => ⟨[mreq], [], ⟨500, webhookErrBody ctx.requestId e⟩⟩
            | .ok resp =>
              ⟨[mreq]
              , [⟨"telnyx:fax:" ++ faxId ++ ".pdf", .bytes resp.bodyBytes, none⟩]
              , ⟨200, telnyxOkBody ctx.requestId⟩⟩
          | _ => ⟨[], [], ⟨500, webhookErrBody ctx.requestId sliceTypeError⟩⟩
        else
          telnyxStoreMeta ev ctx ("telnyx:fax:" ++ faxId ++ ":meta.json")
      | none =>
        telnyxStoreMeta ev ctx ("telnyx:fax:" ++ faxId ++ ":meta.json")
    else
      telnyxStoreMeta ev ctx
        ("telnyx:fax:" ++ faxId ++ ":" ++ jsToString (telnyxEventType ev) ++ ".json")

/-- The 200 body of the sinch webhook handler:
`{ ok: true, requestId, faxId, filesStored }` (the `faxId` is the raw
value the handler extracted). -/
def sinchOkBody (rid : String) (faxId : JsVal) (filesStored : Int) : JsVal :=
  .jobj [ ("ok", .jbool true), ("requestId", .jstr rid)
        , ("faxId", faxId), ("filesStored", .jnum filesStored) ]

/-- `SinchProvider.handleWebhook` from `src/providers/sinch.ts`: branches
on the content type (multipart form / JSON / raw-text catch-all), stores
file parts and a payload or raw-text record, and answers 200; parse
failures in the recognized branches surface as the catch block's 500. -/
def sinchHandleWebhook (parseJson : String → Option JsVal)
    (parseForm : String → Option (List FormEntry))
    (req : WebhookRequest) (ctx : ProviderContext) : WebhookOutcome :=
  let ct := req.contentType.getD ""
  if strIncludes ct "multipart/form-data" then
    match parseForm req.bodyText with
    | none => ⟨[], [], ⟨500, webhookErrBody ctx.requestId formDataError⟩⟩
    | some entries =>
      let fields := formFields entries
      let files := formFiles entries
      let faxId := (dictGet fields "id").getD ((dictGet fields "faxId").getD ctx.requestId)
      let filePuts := files.map (fun f =>
        (⟨"sinch:fax:" ++ faxId ++ ":" ++ (if f.name != "" then f.name else f.key)
         , .bytes f.bytes
         , some (.jobj [("filename", .jstr f.name), ("contentType", .jstr f.ftype)])⟩ : KVPut))
      ⟨[]
      , filePuts ++ [⟨"sinch:fax:" ++ faxId ++ ":payload.json", .jsonText (dictToJson fields), none⟩]
      , ⟨200, sinchOkBody ctx.requestId (.jstr faxId) files.length⟩⟩
  else if strIncludes ct "application/json" then
    match parseJson req.bodyText with
    | none => ⟨[], [], ⟨500, webhookErrBody ctx.requestId jsonParseError⟩⟩
    | some body =>
      let faxIdVal :=
        nullish (jChain (some body) "id")
          (nullish (jChain (some body) "fax_id")
            (nullish (jChain (jChain (some body) "data") "id") (.jstr ctx.requestId)))
      ⟨[]
      , [⟨"sinch:fax:" ++ jsToString faxIdVal ++ ":payload.json", .jsonText body, none⟩]
      , ⟨200, sinchOkBody ctx.requestId faxIdVal 0⟩⟩
  else
    ⟨[]
    , [⟨"sinch:fax:" ++ ctx.requestId ++ ":raw.txt", .text req.bodyText, none⟩]
    , ⟨200, sinchOkBody ctx.requestId (.jstr ctx.requestId) 0⟩⟩

/-- Truthiness of a possibly-undefined JS value. -/
def jTruthyO : Option JsVal → Bool
  | none => false
  | some v => jTruthy v

/-- JS `a || b` on possibly-undefined values. -/
def jsOr (a b : Option JsVal) : Option JsVal :=
  if jTruthyO a then a else b

/-- The 200 body of the dropbox webhook handler (same shape as sinch's). -/
def dropboxOkBody (rid : String) (faxId : JsVal) (filesStored : Int) : JsVal :=
  .jobj [ ("ok", .jbool true), ("requestId", .jstr rid)
        , ("faxId", faxId), ("filesStored", .jnum filesStored) ]

/-- `fileUrl = payload?.file_url || payload?.fax?.file_url` of the
dropbox webhook handler. -/
def dropboxFileUrl (payload : JsVal) : Option JsVal :=
  jsOr (jChain (some payload) "file_url") (jChain (jChain (some payload) "fax") "file_url")

/-- The shared tail of `DropboxFaxProvider.handleWebhook`: when the
payload references a truthy `file_url`, fetch it with the Basic header
(an `ok` response stores the bytes under `dropbox:fax:<id>.pdf`, a
non-`ok` response is only logged, a rejected fetch bubbles into the catch
block's 500 with the earlier puts already persisted); then always store
the payload under `dropbox:fax:<id>:metadata.json` and answer 200.
Response headers are matched by their lowercase name. -/
def dropboxFinish (respond : FetchRequest → Except String HttpResponse)
    (ctx : ProviderContext) (payload : JsVal) (faxIdVal : JsVal)
    (prevPuts : List KVPut) (prevCount : Nat) : WebhookOutcome :=
  let faxId := jsToString faxIdVal
  let metaPut : KVPut := ⟨"dropbox:fax:" ++ faxId ++ ":metadata.json", .jsonText payload, none⟩
  match dropboxFileUrl payload with
  | some fu =>
    if jTruthy fu then
      let headers :=
        if truthy ctx.env.DROPBOX_SIGN_API_KEY then
          [("authorization", "Basic " ++ btoa (ctx.env.DROPBOX_SIGN_API_KEY.getD "" ++ ":"))]
        else []
      let freq : FetchRequest := ⟨jsToString fu, "GET", headers, none⟩
      match respond freq with
      | .error e => ⟨[freq], prevPuts, ⟨500, webhookErrBody ctx.requestId e⟩⟩
      | .ok resp =>
        if respOk resp then
          let ctHeader :=
            match resp.headers.find? (fun p => p.1 = "content-type") with
            | some p => if p.2 != "" then p.2 else "application/pdf"
            | none => "application/pdf"
          let pdfPut : KVPut :=
            ⟨"dropbox:fax:" ++ faxId ++ ".pdf", .bytes resp.bodyBytes
            , some (.jobj [("contentType", .jstr ctHeader)])⟩
          ⟨[freq], prevPuts ++ [pdfPut, metaPut]
          , ⟨200, dropboxOkBody ctx.requestId faxIdVal (prevCount + 1)⟩⟩
        else
          ⟨[freq], prevPuts ++ [metaPut]
          , ⟨200, dropboxOkBody ctx.requestId faxIdVal prevCount⟩⟩
    else
      ⟨[], prevPuts ++ [metaPut], ⟨200, dropboxOkBody ctx.requestId faxIdVal prevCount⟩⟩
  | none =>
    ⟨[], prevPuts ++ [metaPut], ⟨200, dropboxOkBody ctx.requestId faxIdVal prevCount⟩⟩

/-- `DropboxFaxProvider.handleWebhook`: branches on content type (JSON /
multipart / url-encoded / raw-text catch-all), extracts the fax id,
stores file parts, then runs the shared media-fetch+metadata tail. -/
def dropboxHandleWebhook (parseJson : String → Option JsVal)
    (parseForm : String → Option (List FormEntry))
    (parseUrlEnc : String → List (String × String))
    (respond : FetchRequest → Except String HttpResponse)
    (req : WebhookRequest) (ctx : ProviderContext) : WebhookOutcome :=
  let ct := req.contentType.getD ""
  if strIncludes ct "application/json" then
    match parseJson req.bodyText with
    | none => ⟨[], [], ⟨500, webhookErrBody ctx.requestId jsonParseError⟩⟩
    | some payload =>
      let faxIdVal :=
        nullish (jChain (jChain (some payload) "fax") "id")
          (nullish (jChain (jChain (some payload) "event") "fax_id")
            (nullish (jChain (some payload) "id") (.jstr ctx.requestId)))
      dropboxFinish respond ctx payload faxIdVal [] 0
  else if strIncludes ct "multipart/form-data" then
    match parseForm req.bodyText with
    | none => ⟨[], [], ⟨500, webhookErrBody ctx.requestId formDataError⟩⟩
    | some entries =>
      let fields := formFields entries
      let files := formFiles entries
      let faxId := (dictGet fields "fax_id").getD ((dictGet fields "id").getD ctx.requestId)
      let filePuts := files.map (fun f =>
        (⟨"dropbox:fax:" ++ faxId ++ ":" ++ (if f.name != "" then f.name else f.key)
         , .bytes f.bytes
         , some (.jobj [("filename", .jstr f.name), ("contentType", .jstr f.ftype)])⟩ : KVPut))
      dropboxFinish respond ctx (dictToJson fields) (.jstr faxId) filePuts files.length
  else if strIncludes ct "application/x-www-form-urlencoded" then
    let fields := dictOf (parseUrlEnc req.bodyText)
    let faxId := (dictGet fields "fax_id").getD ctx.requestId
    dropboxFinish respond ctx (dictToJson fields) (.jstr faxId) [] 0
  else
    dropboxFinish respond ctx (.jobj [("raw", .jstr req.bodyText)]) (.jstr ctx.requestId) [] 0

/-- Dispatch `handleWebhook` by provider tag (providers that do not use a
given platform parser simply ignore that parameter). -/
def handleWebhookOf : PName → (String → Option JsVal) → (String → Option (List FormEntry)) →
    (String → List (String × String)) → (FetchRequest → Except String HttpResponse) →
    WebhookRequest → ProviderContext → WebhookOutcome
  | .telnyx => fun pj _ _ respond req ctx => telnyxHandleWebhook pj respond req ctx
  | .sinch => fun pj pf _ _ req ctx => sinchHandleWebhook pj pf req ctx
  | .dropboxFax => dropboxHandleWebhook



/-- Value of a named header in a header list. -/
def headerVal (hs : List (String × String)) (k : String) : Option String :=
  (hs.find? (fun p => p.1 = k)).map (fun p => p.2)

/-- Value of a named field of a fetch request's JSON body. -/
def fetchBodyField (r : FetchRequest) (k : String) : Option JsVal :=
  r.body.bind (fun b => jGet b k)

/-- The configuration field named by the first failing check of each
provider's `sendFax` (the `<FIELD>` of the returned error message). -/
def firstMissingField : PName → WorkerEnv → String
  | .telnyx, e =>
    if !truthy e.TELNYX_API_KEY then "TELNYX_API_KEY"
    else if !truthy e.CONNECTION_ID then "CONNECTION_ID"
    else "FAX_FROM"
  | .sinch, e =>
    if !truthy e.SINCH_PROJECT_ID then "SINCH_PROJECT_ID"
    else "SINCH_ACCESS_KEY or SINCH_SECRET_KEY"
  | .dropboxFax, _ => "DROPBOX_SIGN_API_KEY"

/-- Fully configured environment used by concrete witnesses (the values
of the repository's own test fixtures). -/
def cEnvFull : WorkerEnv :=
  { TELNYX_API_KEY := some "key_123"
  , CONNECTION_ID := some "conn_123"
  , FAX_FROM := some "+15551234567"
  , DROPBOX_SIGN_API_KEY := some "dbx_key"
  , SINCH_PROJECT_ID := some "proj_123"
  , SINCH_ACCESS_KEY := some "access"
  , SINCH_SECRET_KEY := some "secret" }

/-- Concrete send parameters used by witnesses. -/
def cParams : SendFaxParams := ⟨"+15558675309", "https://x/media/file.pdf"⟩

/-- Concrete context with full configuration. -/
def cCtx : ProviderContext := ⟨"req-1", "https://x", cEnvFull⟩

/-- Concrete context with empty configuration. -/
def cCtxEmpty : ProviderContext := ⟨"req-2", "https://x", {}⟩

/-- C10: if either `BASIC_AUTH_USER` or `BASIC_AUTH_PASS` is absent from
the environment, `checkBasicAuth` authorizes every request — including
one with no `Authorization` header — so the protected endpoints
(`PUT /media/:key`, `POST /fax/send`) are open to unauthenticated
callers. -/
theorem claim_C10 (atob : String → Option String) (authHeader : Option String)
    (env : WorkerEnv)
    (h : env.BASIC_AUTH_USER = none ∨ env.BASIC_AUTH_PASS = none) :
    checkBasicAuth atob authHeader env = { authorized := true, user := none } ∧
    isProtectedEndpoint "/fax/send" "POST" = true ∧
    isProtectedEndpoint "/media/file.pdf" "PUT" = true := by
  refine ⟨?_, by decide, by decide⟩
  unfold checkBasicAuth
  rcases h with h | h <;> simp [h, truthy]

/-- Witness for C10 at a concrete unconfigured environment and a request
with no Authorization header. -/
theorem claim_C10_witness :
    checkBasicAuth (fun _ => none) none {} = { authorized := true, user := none } ∧
    isProtectedEndpoint "/fax/send" "POST" = true ∧
    isProtectedEndpoint "/media/file.pdf" "PUT" = true :=
  claim_C10 (fun _ => none) none {} (Or.inl rfl)

/-- C4: the resolver returns a structured error (and no provider) for an
unknown provider name, the exact telnyx instance for any casing of
"telnyx", and the default telnyx provider when no name is configured. -/
theorem claim_C4 (env : WorkerEnv) :
    (∀ s, env.FAX_PROVIDER = some s → jsToLowerCase s ≠ "telnyx" →
      resolveProvider env = .error ("Unsupported fax provider: " ++ jsToLowerCase s)) ∧
    (∀ s, env.FAX_PROVIDER = some s → jsToLowerCase s = "telnyx" →
      resolveProvider env = .ok PName.telnyx) ∧
    (env.FAX_PROVIDER = none → resolveProvider env = .ok PName.telnyx) := by
  refine ⟨?_, ?_, ?_⟩
  · intro s hs hne
    simp [resolveProvider, hs, hne]
  · intro s hs he
    simp [resolveProvider, hs, he]
  · intro hs
    have hlow : jsToLowerCase "telnyx" = "telnyx" := by decide
    simp [resolveProvider, hs, hlow]

/-- Witness for C4 at the three concrete inputs: an unknown name, an
upper-case known name, and an absent name. -/
theorem claim_C4_witness :
    resolveProvider { FAX_PROVIDER := some "sinch" } =
      .error ("Unsupported fax provider: " ++ jsToLowerCase "sinch") ∧
    resolveProvider { FAX_PROVIDER := some "TELNYX" } = .ok PName.telnyx ∧
    resolveProvider { FAX_PROVIDER := none } = .ok PName.telnyx :=
  ⟨(claim_C4 _).1 "sinch" rfl (by decide)
  , (claim_C4 _).2.1 "TELNYX" rfl (by decide)
  , (claim_C4 _).2.2 rfl⟩

/-- C5: each vendor request carries exactly the authorization header its
scheme prescribes — telnyx `Bearer <API_KEY>`, dropbox-fax
`Basic base64("<API_KEY>:")`, sinch
`Basic base64("<ACCESS_KEY>:<SECRET_KEY>")`. -/
theorem claim_C5 (params : SendFaxParams) (baseUrl : String) (env : WorkerEnv)
    (key dkey access secret : String) :
    (env.TELNYX_API_KEY = some key →
      headerVal (telnyxFetchRequest params baseUrl env).headers "authorization" =
        some ("Bearer " ++ key)) ∧
    (env.DROPBOX_SIGN_API_KEY = some dkey →
      headerVal (dropboxFetchRequest params env).headers "authorization" =
        some ("Basic " ++ btoa (dkey ++ ":"))) ∧
    (env.SINCH_ACCESS_KEY = some access → env.SINCH_SECRET_KEY = some secret →
      headerVal (sinchFetchRequest params env).headers "authorization" =
        some ("Basic " ++ btoa (access ++ ":" ++ secret))) := by
  refine ⟨?_, ?_, ?_⟩ <;> intros <;>
    simp [headerVal, telnyxFetchRequest, dropboxFetchRequest, sinchFetchRequest, *]

/-- Witness for C5 at the credential set of the repository's tests. -/
theorem claim_C5_witness :
    headerVal (telnyxFetchRequest cParams "https://x" cEnvFull).headers "authorization" =
      some ("Bearer " ++ "key_123") ∧
    headerVal (dropboxFetchRequest cParams cEnvFull).headers "authorization" =
      some ("Basic " ++ btoa ("dbx_key" ++ ":")) ∧
    headerVal (sinchFetchRequest cParams cEnvFull).headers "authorization" =
      some ("Basic " ++ btoa ("access" ++ ":" ++ "secret")) :=
  ⟨(claim_C5 cParams "https://x" cEnvFull "key_123" "dbx_key" "access" "secret").1 rfl
  , (claim_C5 cParams "https://x" cEnvFull "key_123" "dbx_key" "access" "secret").2.1 rfl
  , (claim_C5 cParams "https://x" cEnvFull "key_123" "dbx_key" "access" "secret").2.2 rfl rfl⟩

/-- C1: for every provider, when any required credential/configuration
field is absent (falsy) in `ctx.env`, `sendFax` returns
`{ ok: false, status: 500, fax: null, raw: { error: "<FIELD> not
configured" } }` naming the first missing field and issues zero outbound
HTTP calls. -/
theorem claim_C1 (p : PName) (pj : String → Option JsVal)
    (respond : FetchRequest → Except String HttpResponse)
    (params : SendFaxParams) (ctx : ProviderContext)
    (h : requiredConfigMissing p ctx.env = true) :
    (sendFaxOf p pj respond params ctx).calls = [] ∧
    (sendFaxOf p pj respond params ctx).result =
      .ok (configErrorResult (firstMissingField p ctx.env)) := by
  cases p
  · simp only [requiredConfigMissing, Bool.or_eq_true] at h
    unfold sendFaxOf telnyxSendFax firstMissingField
    rcases hA : truthy ctx.env.TELNYX_API_KEY with _ | _ <;>
      rcases hB : truthy ctx.env.CONNECTION_ID with _ | _ <;>
        rcases hC : truthy ctx.env.FAX_FROM with _ | _ <;>
          simp [hA, hB, hC] at h ⊢
  · simp only [requiredConfigMissing, Bool.or_eq_true] at h
    unfold sendFaxOf sinchSendFax firstMissingField
    rcases hA : truthy ctx.env.SINCH_PROJECT_ID with _ | _ <;>
      rcases hB : truthy ctx.env.SINCH_ACCESS_KEY with _ | _ <;>
        rcases hC : truthy ctx.env.SINCH_SECRET_KEY with _ | _ <;>
          simp [hA, hB, hC] at h ⊢
  · simp only [requiredConfigMissing, Bool.or_eq_true] at h
    unfold sendFaxOf dropboxSendFax firstMissingField
    rcases hA : truthy ctx.env.DROPBOX_SIGN_API_KEY with _ | _ <;>
      simp [hA] at h ⊢

/-- Witness for C1: the telnyx provider with a fully empty environment
returns the `TELNYX_API_KEY not configured` error and makes no call. -/
theorem claim_C1_witness :
    (sendFaxOf PName.telnyx (fun _ => none) (fun _ => .error "no network")
        cParams cCtxEmpty).calls = [] ∧
    (sendFaxOf PName.telnyx (fun _ => none) (fun _ => .error "no network")
        cParams cCtxEmpty).result =
      .ok (configErrorResult (firstMissingField PName.telnyx cCtxEmpty.env)) :=
  claim_C1 PName.telnyx (fun _ => none) (fun _ => .error "no network")
    cParams cCtxEmpty (by decide)

/-- A concrete vendor response with a non-JSON body, used by witnesses. -/
def cRespText : HttpResponse :=
  { status := 200, bodyText := "OK (plain text)", bodyBytes := [], headers := [] }

/-- A concrete non-2xx vendor response with a JSON body, used by
witnesses. -/
def cRespJson : HttpResponse :=
  { status := 404, bodyText := "{}", bodyBytes := [], headers := [] }

/-- C3 (amended): when the vendor response body is not valid JSON, the
sinch and dropbox-fax providers carry the body through as text in
`fax`/`raw` without throwing; the telnyx provider instead decodes via
`res.json()` and throws on a malformed body. -/
theorem claim_C3 (pj : String → Option JsVal)
    (respond : FetchRequest → Except String HttpResponse)
    (params : SendFaxParams) (ctx : ProviderContext) (resp : HttpResponse) :
    (truthy ctx.env.SINCH_PROJECT_ID = true → truthy ctx.env.SINCH_ACCESS_KEY = true →
      truthy ctx.env.SINCH_SECRET_KEY = true →
      respond (sinchFetchRequest params ctx.env) = .ok resp →
      pj resp.bodyText = none →
      (sinchSendFax pj respond params ctx).result =
        .ok { ok := respOk resp, status := resp.status
            , fax := .jstr resp.bodyText, raw := .jstr resp.bodyText }) ∧
    (truthy ctx.env.DROPBOX_SIGN_API_KEY = true →
      respond (dropboxFetchRequest params ctx.env) = .ok resp →
      pj resp.bodyText = none →
      (dropboxSendFax pj respond params ctx).result =
        .ok { ok := respOk resp, status := resp.status
            , fax := .jstr resp.bodyText, raw := .jstr resp.bodyText }) ∧
    (truthy ctx.env.TELNYX_API_KEY = true → truthy ctx.env.CONNECTION_ID = true →
      truthy ctx.env.FAX_FROM = true →
      respond (telnyxFetchRequest params ctx.baseUrl ctx.env) = .ok resp →
      pj resp.bodyText = none →
      (telnyxSendFax pj respond params ctx).result = .error jsonParseError) := by
  refine ⟨?_, ?_, ?_⟩
  · intro h1 h2 h3 hr hpj
    simp [sinchSendFax, h1, h2, h3, hr, hpj, jsonOrText]
  · intro h1 hr hpj
    simp [dropboxSendFax, h1, hr, hpj, jsonOrText]
  · intro h1 h2 h3 hr hpj
    simp [telnyxSendFax, h1, h2, h3, hr, hpj]

/-- Counterexample to C3 as stated: with valid credentials and a vendor
response whose body is plain text, the telnyx `sendFax` throws a JSON
parse error instead of carrying the body through as text. -/
theorem claim_C3_counterexample :
    (telnyxSendFax (fun _ => none) (fun _ => .ok cRespText) cParams cCtx).result =
      .error jsonParseError := by
  rfl

/-- Witness for C3 (amended) at concrete inputs for all three
providers. -/
theorem claim_C3_witness :
    (sinchSendFax (fun _ => none) (fun _ => .ok cRespText) cParams cCtx).result =
      .ok { ok := respOk cRespText, status := cRespText.status
          , fax := .jstr cRespText.bodyText, raw := .jstr cRespText.bodyText } ∧
    (dropboxSendFax (fun _ => none) (fun _ => .ok cRespText) cParams cCtx).result =
      .ok { ok := respOk cRespText, status := cRespText.status
          , fax := .jstr cRespText.bodyText, raw := .jstr cRespText.bodyText } ∧
    (telnyxSendFax (fun _ => none) (fun _ => .ok cRespText) cParams cCtx).result =
      .error jsonParseError :=
  ⟨(claim_C3 (fun _ => none) (fun _ => .ok cRespText) cParams cCtx cRespText).1
      rfl rfl rfl rfl rfl
  , (claim_C3 (fun _ => none) (fun _ => .ok cRespText) cParams cCtx cRespText).2.1
      rfl rfl rfl
  , (claim_C3 (fun _ => none) (fun _ => .ok cRespText) cParams cCtx cRespText).2.2
      rfl rfl rfl rfl rfl⟩

/-- C6 (amended): each provider's `sendFax` mirrors the vendor HTTP
outcome — `ok` is the vendor success flag and `status` the vendor status
code, with the body forwarded and a non-2xx response returned rather than
raised — unconditionally for sinch and dropbox-fax, and for telnyx
whenever the vendor body is valid JSON. -/
theorem claim_C6 (pj : String → Option JsVal)
    (respond : FetchRequest → Except String HttpResponse)
    (params : SendFaxParams) (ctx : ProviderContext) (resp : HttpResponse) (j : JsVal) :
    (truthy ctx.env.SINCH_PROJECT_ID = true → truthy ctx.env.SINCH_ACCESS_KEY = true →
      truthy ctx.env.SINCH_SECRET_KEY = true →
      respond (sinchFetchRequest params ctx.env) = .ok resp →
      (sinchSendFax pj respond params ctx).result =
        .ok { ok := respOk resp, status := resp.status
            , fax := jsonOrText pj resp.bodyText, raw := jsonOrText pj resp.bodyText }) ∧
    (truthy ctx.env.DROPBOX_SIGN_API_KEY = true →
      respond (dropboxFetchRequest params ctx.env) = .ok resp →
      (dropboxSendFax pj respond params ctx).result =
        .ok { ok := respOk resp, status := resp.status
            , fax := jsonOrText pj resp.bodyText, raw := jsonOrText pj resp.bodyText }) ∧
    (truthy ctx.env.TELNYX_API_KEY = true → truthy ctx.env.CONNECTION_ID = true →
      truthy ctx.env.FAX_FROM = true →
      respond (telnyxFetchRequest params ctx.baseUrl ctx.env) = .ok resp →
      pj resp.bodyText = some j →
      (telnyxSendFax pj respond params ctx).result =
        .ok { ok := respOk resp, status := resp.status, fax := j, raw := j }) := by
  refine ⟨?_, ?_, ?_⟩
  · intro h1 h2 h3 hr
    simp [sinchSendFax, h1, h2, h3, hr]
  · intro h1 hr
    simp [dropboxSendFax, h1, hr]
  · intro h1 h2 h3 hr hpj
    simp [telnyxSendFax, h1, h2, h3, hr, hpj]

/-- Counterexample to C6 as stated: with valid credentials, a non-2xx
vendor response whose body is not JSON makes the telnyx `sendFax` throw a
parse error instead of returning `ok=false` with the vendor status. -/
theorem claim_C6_counterexample :
    (telnyxSendFax (fun _ => none)
        (fun _ => .ok { status := 404, bodyText := "<html>Not Found</html>"
                      , bodyBytes := [], headers := [] })
        cParams cCtx).result = .error jsonParseError := by
  rfl

/-- Witness for C6 (amended): a 404 JSON-bodied vendor response is passed
through by all three providers at concrete inputs. -/
theorem claim_C6_witness :
    (sinchSendFax (fun _ => some (.jobj [])) (fun _ => .ok cRespJson) cParams cCtx).result =
      .ok { ok := respOk cRespJson, status := cRespJson.status
          , fax := jsonOrText (fun _ => some (.jobj [])) cRespJson.bodyText
          , raw := jsonOrText (fun _ => some (.jobj [])) cRespJson.bodyText } ∧
    (dropboxSendFax (fun _ => some (.jobj [])) (fun _ => .ok cRespJson) cParams cCtx).result =
      .ok { ok := respOk cRespJson, status := cRespJson.status
          , fax := jsonOrText (fun _ => some (.jobj [])) cRespJson.bodyText
          , raw := jsonOrText (fun _ => some (.jobj [])) cRespJson.bodyText } ∧
    (telnyxSendFax (fun _ => some (.jobj [])) (fun _ => .ok cRespJson) cParams cCtx).result =
      .ok { ok := respOk cRespJson, status := cRespJson.status
          , fax := .jobj [], raw := .jobj [] } :=
  ⟨(claim_C6 (fun _ => some (.jobj [])) (fun _ => .ok cRespJson) cParams cCtx cRespJson
      (.jobj [])).1 rfl rfl rfl rfl
  , (claim_C6 (fun _ => some (.jobj [])) (fun _ => .ok cRespJson) cParams cCtx cRespJson
      (.jobj [])).2.1 rfl rfl
  , (claim_C6 (fun _ => some (.jobj [])) (fun _ => .ok cRespJson) cParams cCtx cRespJson
      (.jobj [])).2.2 rfl rfl rfl rfl rfl⟩

/-- C2 (amended): for sinch and dropbox-fax, a webhook request whose
content type is none the provider recognizes is answered 200 with an
`ok: true` body and the raw request text stored under a fallback key; the
telnyx handler ignores the content type entirely, attempts a JSON parse
of any body, and on an unparseable body returns 500 storing nothing. -/
theorem claim_C2 (pj : String → Option JsVal)
    (pf : String → Option (List FormEntry))
    (pu : String → List (String × String))
    (respond : FetchRequest → Except String HttpResponse)
    (req : WebhookRequest) (ctx : ProviderContext) :
    (strIncludes (req.contentType.getD "") "multipart/form-data" = false →
      strIncludes (req.contentType.getD "") "application/json" = false →
      sinchHandleWebhook pj pf req ctx =
        ⟨[], [⟨"sinch:fax:" ++ ctx.requestId ++ ":raw.txt", .text req.bodyText, none⟩]
        , ⟨200, sinchOkBody ctx.requestId (.jstr ctx.requestId) 0⟩⟩) ∧
    (strIncludes (req.contentType.getD "") "application/json" = false →
      strIncludes (req.contentType.getD "") "multipart/form-data" = false →
      strIncludes (req.contentType.getD "") "application/x-www-form-urlencoded" = false →
      dropboxHandleWebhook pj pf pu respond req ctx =
        ⟨[], [⟨"dropbox:fax:" ++ ctx.requestId ++ ":metadata.json"
              , .jsonText (.jobj [("raw", .jstr req.bodyText)]), none⟩]
        , ⟨200, dropboxOkBody ctx.requestId (.jstr ctx.requestId) 0⟩⟩) ∧
    (pj req.bodyText = none →
      telnyxHandleWebhook pj respond req ctx =
        ⟨[], [], ⟨500, webhookErrBody ctx.requestId jsonParseError⟩⟩) := by
  refine ⟨?_, ?_, ?_⟩
  · intro h1 h2
    simp [sinchHandleWebhook, h1, h2]
  · intro h1 h2 h3
    simp [dropboxHandleWebhook, h1, h2, h3, dropboxFinish, dropboxFileUrl,
      jsOr, jChain, jGet, jTruthyO, jsToString]
  · intro hpj
    simp [telnyxHandleWebhook, hpj]

/-- Counterexample to C2 as stated: a `text/plain` webhook with a
non-JSON body makes the telnyx handler answer 500 with zero stored
objects, instead of the claimed 200 with a raw-text fallback record. -/
theorem claim_C2_counterexample :
    (telnyxHandleWebhook (fun _ => none)
        (fun _ => .ok { status := 200, bodyText := "", bodyBytes := [], headers := [] })
        ⟨some "text/plain", "hello"⟩ cCtxEmpty).response.status = 500 ∧
    (telnyxHandleWebhook (fun _ => none)
        (fun _ => .ok { status := 200, bodyText := "", bodyBytes := [], headers := [] })
        ⟨some "text/plain", "hello"⟩ cCtxEmpty).puts = [] :=
  ⟨rfl, rfl⟩

/-- Witness for C2 (amended) at a concrete `text/plain` request. -/
theorem claim_C2_witness :
    sinchHandleWebhook (fun _ => none) (fun _ => none) ⟨some "text/plain", "hello"⟩ cCtxEmpty =
      ⟨[], [⟨"sinch:fax:" ++ cCtxEmpty.requestId ++ ":raw.txt", .text "hello", none⟩]
      , ⟨200, sinchOkBody cCtxEmpty.requestId (.jstr cCtxEmpty.requestId) 0⟩⟩ ∧
    dropboxHandleWebhook (fun _ => none) (fun _ => none) (fun _ => [])
        (fun _ => .error "no network") ⟨some "text/plain", "hello"⟩ cCtxEmpty =
      ⟨[], [⟨"dropbox:fax:" ++ cCtxEmpty.requestId ++ ":metadata.json"
            , .jsonText (.jobj [("raw", .jstr "hello")]), none⟩]
      , ⟨200, dropboxOkBody cCtxEmpty.requestId (.jstr cCtxEmpty.requestId) 0⟩⟩ ∧
    telnyxHandleWebhook (fun _ => none) (fun _ => .error "no network")
        ⟨some "text/plain", "hello"⟩ cCtxEmpty =
      ⟨[], [], ⟨500, webhookErrBody cCtxEmpty.requestId jsonParseError⟩⟩ :=
  ⟨(claim_C2 (fun _ => none) (fun _ => none) (fun _ => []) (fun _ => .error "no network")
      ⟨some "text/plain", "hello"⟩ cCtxEmpty).1 (by decide) (by decide)
  , (claim_C2 (fun _ => none) (fun _ => none) (fun _ => []) (fun _ => .error "no network")
      ⟨some "text/plain", "hello"⟩ cCtxEmpty).2.1 (by decide) (by decide) (by decide)
  , (claim_C2 (fun _ => none) (fun _ => none) (fun _ => []) (fun _ => .error "no network")
      ⟨some "text/plain", "hello"⟩ cCtxEmpty).2.2 rfl⟩

/-- C9: with valid telnyx credentials, `sendFax` issues exactly the one
vendor request, whose JSON body carries `to = params.to`,
`from = FAX_FROM`, `media_url = params.mediaUrl` and
`webhook_url = baseUrl + webhookPath`. -/
theorem claim_C9 (pj : String → Option JsVal)
    (respond : FetchRequest → Except String HttpResponse)
    (params : SendFaxParams) (ctx : ProviderContext) (key conn f : String)
    (hk : ctx.env.TELNYX_API_KEY = some key) (hk' : key ≠ "")
    (hc : ctx.env.CONNECTION_ID = some conn) (hc' : conn ≠ "")
    (hf : ctx.env.FAX_FROM = some f) (hf' : f ≠ "") :
    (telnyxSendFax pj respond params ctx).calls =
      [telnyxFetchRequest params ctx.baseUrl ctx.env] ∧
    fetchBodyField (telnyxFetchRequest params ctx.baseUrl ctx.env) "to" =
      some (.jstr params.«to») ∧
    fetchBodyField (telnyxFetchRequest params ctx.baseUrl ctx.env) "from" =
      some (.jstr f) ∧
    fetchBodyField (telnyxFetchRequest params ctx.baseUrl ctx.env) "media_url" =
      some (.jstr params.mediaUrl) ∧
    fetchBodyField (telnyxFetchRequest params ctx.baseUrl ctx.env) "webhook_url" =
      some (.jstr (ctx.baseUrl ++ telnyxWebhookPath)) := by
  have h1 : truthy ctx.env.TELNYX_API_KEY = true := by rw [hk]; simp [truthy, hk']
  have h2 : truthy ctx.env.CONNECTION_ID = true := by rw [hc]; simp [truthy, hc']
  have h3 : truthy ctx.env.FAX_FROM = true := by rw [hf]; simp [truthy, hf']
  refine ⟨?_, ?_, ?_, ?_, ?_⟩
  · unfold telnyxSendFax
    simp only [h1, h2, h3, Bool.not_true, Bool.false_eq_true, if_false]
    rcases hre : respond (telnyxFetchRequest params ctx.baseUrl ctx.env) with e | resp
    · simp
    · rcases hpj : pj resp.bodyText with _ | b <;> simp [hpj]
  · simp [fetchBodyField, telnyxFetchRequest, jGet]
  · simp [fetchBodyField, telnyxFetchRequest, jGet, hf]
  · simp [fetchBodyField, telnyxFetchRequest, jGet]
  · simp [fetchBodyField, telnyxFetchRequest, jGet]

/-- Witness for C9 at the concrete inputs of the claim's scenario. -/
theorem claim_C9_witness :
    (telnyxSendFax (fun _ => none) (fun _ => .error "no network") cParams cCtx).calls =
      [telnyxFetchRequest cParams cCtx.baseUrl cCtx.env] ∧
    fetchBodyField (telnyxFetchRequest cParams cCtx.baseUrl cCtx.env) "to" =
      some (.jstr cParams.«to») ∧
    fetchBodyField (telnyxFetchRequest cParams cCtx.baseUrl cCtx.env) "from" =
      some (.jstr "+15551234567") ∧
    fetchBodyField (telnyxFetchRequest cParams cCtx.baseUrl cCtx.env) "media_url" =
      some (.jstr cParams.mediaUrl) ∧
    fetchBodyField (telnyxFetchRequest cParams cCtx.baseUrl cCtx.env) "webhook_url" =
      some (.jstr (cCtx.baseUrl ++ telnyxWebhookPath)) :=
  claim_C9 (fun _ => none) (fun _ => .error "no network") cParams cCtx
    "key_123" "conn_123" "+15551234567" rfl (by decide) rfl (by decide) rfl (by decide)

/-- The media-download request the telnyx webhook handler issues when the
API key is configured. -/
def telnyxMediaRequest (u key : String) : FetchRequest :=
  ⟨u, "GET", [("authorization", "Bearer " ++ key)], none⟩

/-- C8: for a telnyx webhook event of type `fax.received` (with the API
key configured), a truthy string `media_url` triggers exactly one media
fetch of that URL with the bearer header and stores the fetched bytes
under `telnyx:fax:<faxId>.pdf`; an absent `media_url` stores a
metadata-only record under `telnyx:fax:<faxId>:meta.json` with no fetch
attempted. -/
theorem claim_C8 (pj : String → Option JsVal)
    (respond : FetchRequest → Except String HttpResponse)
    (req : WebhookRequest) (ctx : ProviderContext) (ev : JsVal)
    (key u : String) (resp : HttpResponse) (p : JsVal)
    (hk : ctx.env.TELNYX_API_KEY = some key) (hk' : key ≠ "")
    (hpj : pj req.bodyText = some ev)
    (hevt : isStr (telnyxEventType ev) "fax.received" = true) :
    (telnyxMediaUrl ev = some (.jstr u) → u ≠ "" →
      respond (telnyxMediaRequest u key) = .ok resp →
      telnyxHandleWebhook pj respond req ctx =
        ⟨[telnyxMediaRequest u key]
        , [⟨"telnyx:fax:" ++ telnyxFaxId ev ctx.requestId ++ ".pdf"
            , .bytes resp.bodyBytes, none⟩]
        , ⟨200, telnyxOkBody ctx.requestId⟩⟩) ∧
    (telnyxPayload ev = some p → telnyxMediaUrl ev = none →
      telnyxHandleWebhook pj respond req ctx =
        ⟨[]
        , [⟨"telnyx:fax:" ++ telnyxFaxId ev ctx.requestId ++ ":meta.json"
            , .jsonText p, none⟩]
        , ⟨200, telnyxOkBody ctx.requestId⟩⟩) := by
  refine ⟨?_, ?_⟩
  · intro hmu hu hre
    simp only [telnyxMediaRequest] at hre ⊢
    cases ev
    case jobj fs =>
      simp [telnyxHandleWebhook, hpj, hevt, hmu, hu, jTruthy, hk, truthy, hk', hre]
    all_goals simp [telnyxEventType, jChain, jGet, nullish, isStr] at hevt
  · intro hp hmu
    cases ev
    case jobj fs =>
      simp [telnyxHandleWebhook, hpj, hevt, hmu, telnyxStoreMeta, hp]
    all_goals simp [telnyxEventType, jChain, jGet, nullish, isStr] at hevt

/-- Concrete `fax.received` webhook event with a `media_url` (the
repository's own test fixture). -/
def cEventMedia : JsVal :=
  .jobj [("data", .jobj
    [ ("event_type", .jstr "fax.received")
    , ("payload", .jobj
        [ ("fax_id", .jstr "fax_999")
        , ("media_url", .jstr "https://files.telnyx.com/fax.pdf") ]) ])]

/-- Concrete `fax.received` webhook event without a `media_url`. -/
def cEventNoMedia : JsVal :=
  .jobj [("data", .jobj
    [ ("event_type", .jstr "fax.received")
    , ("payload", .jobj [("fax_id", .jstr "fax_123")]) ])]

/-- A concrete media-fetch response carrying three bytes. -/
def cPdfResp : HttpResponse :=
  { status := 200, bodyText := "", bodyBytes := [1, 2, 3], headers := [] }

/-- Witness for C8 at the two concrete events: one with a `media_url`
(media fetched and stored) and one without (metadata only, no fetch). -/
theorem claim_C8_witness :
    telnyxHandleWebhook (fun _ => some cEventMedia) (fun _ => .ok cPdfResp)
        ⟨some "application/json", "{event}"⟩ cCtx =
      ⟨[telnyxMediaRequest "https://files.telnyx.com/fax.pdf" "key_123"]
      , [⟨"telnyx:fax:" ++ telnyxFaxId cEventMedia cCtx.requestId ++ ".pdf"
          , .bytes cPdfResp.bodyBytes, none⟩]
      , ⟨200, telnyxOkBody cCtx.requestId⟩⟩ ∧
    telnyxHandleWebhook (fun _ => some cEventNoMedia) (fun _ => .error "no network")
        ⟨some "application/json", "{event}"⟩ cCtx =
      ⟨[]
      , [⟨"telnyx:fax:" ++ telnyxFaxId cEventNoMedia cCtx.requestId ++ ":meta.json"
          , .jsonText (.jobj [("fax_id", .jstr "fax_123")]), none⟩]
      , ⟨200, telnyxOkBody cCtx.requestId⟩⟩ :=
  ⟨(claim_C8 (fun _ => some cEventMedia) (fun _ => .ok cPdfResp)
      ⟨some "application/json", "{event}"⟩ cCtx cEventMedia "key_123"
      "https://files.telnyx.com/fax.pdf" cPdfResp .jnull
      rfl (by decide) rfl rfl).1 rfl (by decide) rfl
  , (claim_C8 (fun _ => some cEventNoMedia) (fun _ => .error "no network")
      ⟨some "application/json", "{event}"⟩ cCtx cEventNoMedia "key_123"
      "" cPdfResp (.jobj [("fax_id", .jstr "fax_123")])
      rfl (by decide) rfl rfl).2 rfl rfl⟩

/-- Every 200 answer of the telnyx webhook handler has performed at least
one KV put. -/
theorem telnyxPutsOf200 (pj : String → Option JsVal)
    (respond : FetchRequest → Except String HttpResponse)
    (req : WebhookRequest) (ctx : ProviderContext)
    (h : (telnyxHandleWebhook pj respond req ctx).response.status = 200) :
    (telnyxHandleWebhook pj respond req ctx).puts ≠ [] := by
  revert h
  unfold telnyxHandleWebhook telnyxStoreMeta
  repeat' (first | split | simp)

/-- Every 200 answer of the sinch webhook handler has performed at least
one KV put. -/
theorem sinchPutsOf200 (pj : String → Option JsVal)
    (pf : String → Option (List FormEntry))
    (req : WebhookRequest) (ctx : ProviderContext)
    (h : (sinchHandleWebhook pj pf req ctx).response.status = 200) :
    (sinchHandleWebhook pj pf req ctx).puts ≠ [] := by
  revert h
  unfold sinchHandleWebhook
  repeat' (first | split | simp)

/-- Every 200 answer of the dropbox webhook tail has performed at least
one KV put. -/
theorem dropboxFinishPuts (respond : FetchRequest → Except String HttpResponse)
    (ctx : ProviderContext) (payload faxIdVal : JsVal)
    (prevPuts : List KVPut) (prevCount : Nat)
    (h : (dropboxFinish respond ctx payload faxIdVal prevPuts prevCount).response.status = 200) :
    (dropboxFinish respond ctx payload faxIdVal prevPuts prevCount).puts ≠ [] := by
  revert h
  unfold dropboxFinish
  repeat' (first | split | simp)

/-- Every 200 answer of the dropbox webhook handler has performed at
least one KV put. -/
theorem dropboxPutsOf200 (pj : String → Option JsVal)
    (pf : String → Option (List FormEntry))
    (pu : String → List (String × String))
    (respond : FetchRequest → Except String HttpResponse)
    (req : WebhookRequest) (ctx : ProviderContext)
    (h : (dropboxHandleWebhook pj pf pu respond req ctx).response.status = 200) :
    (dropboxHandleWebhook pj pf pu respond req ctx).puts ≠ [] := by
  revert h
  unfold dropboxHandleWebhook
  repeat' (first
    | split
    | exact fun hh => dropboxFinishPuts _ _ _ _ _ _ hh
    | simp)

/-- Counterexample to C7 as stated: a telnyx `fax.received` webhook whose
body parses successfully but whose media fetch rejects is answered 500
with zero KV puts — a successfully parsed webhook that completes with no
stored object. -/
theorem claim_C7_counterexample :
    (telnyxHandleWebhook (fun _ => some cEventMedia) (fun _ => .error "network fault")
        ⟨some "application/json", "{event}"⟩ cCtx).puts = [] ∧
    (telnyxHandleWebhook (fun _ => some cEventMedia) (fun _ => .error "network fault")
        ⟨some "application/json", "{event}"⟩ cCtx).response.status = 500 :=
  ⟨rfl, rfl⟩

/-- C7 (amended): for every provider, a webhook invocation that is
answered with the 200 response has performed at least one KV put before
returning it; a successfully parsed webhook can complete with zero
stored objects only by answering 500 (a post-parse media fetch or store
throw). -/
theorem claim_C7 (p : PName) (pj : String → Option JsVal)
    (pf : String → Option (List FormEntry))
    (pu : String → List (String × String))
    (respond : FetchRequest → Except String HttpResponse)
    (req : WebhookRequest) (ctx : ProviderContext)
    (h : (handleWebhookOf p pj pf pu respond req ctx).response.status = 200) :
    (handleWebhookOf p pj pf pu respond req ctx).puts ≠ [] := by
  cases p
  · exact telnyxPutsOf200 pj respond req ctx h
  · exact sinchPutsOf200 pj pf req ctx h
  · exact dropboxPutsOf200 pj pf pu respond req ctx h

/-- Witness for C7: the sinch handler on a concrete raw-text webhook
answers 200 and has stored a record. -/
theorem claim_C7_witness :
    (handleWebhookOf PName.sinch (fun _ => none) (fun _ => none) (fun _ => [])
        (fun _ => .error "no network") ⟨some "text/plain", "hi"⟩ cCtxEmpty).puts ≠ [] :=
  claim_C7 PName.sinch (fun _ => none) (fun _ => none) (fun _ => [])
    (fun _ => .error "no network") ⟨some "text/plain", "hi"⟩ cCtxEmpty rfl
